import Mathlib

/-!
# Verification of the live refresh-and-seek-window scheduler
(`lib/player/dash_video_source.js`)

Shallow embedding of the scheduler's state and operations. Times are modelled
as exact rationals (`ℚ`); JavaScript numbers are IEEE doubles, but every
quantity here is seconds-scale arithmetic on manifest data where the spec's
statements are about real-number arithmetic.
-/

namespace DashVideoSource

/-- The `[seekStartTime_, seekEndTime_]` live seek window
(fields `seekStartTime_` / `seekEndTime_` of `DashVideoSource`). -/
structure SeekWindow where
  seekStartTime : ℚ
  seekEndTime : ℚ
deriving DecidableEq, Repr

/-- Stream limits as returned by `computeStreamLimits()`:
a `{start, end}` pair. -/
structure StreamLimits where
  start : ℚ
  «end» : ℚ
deriving DecidableEq, Repr

/-- `MIN_UPDATE_INTERVAL_ = 3`: the minimum time, in seconds, between MPD
fetches. -/
def MIN_UPDATE_INTERVAL : ℚ := 3

/-- The seek-window part of `onStartStreams` (lines 187-207): for live
content `seekStartTime_ = max(streamLimits.end - timeShiftBufferDepth,
streamLimits.start)`, otherwise `streamLimits.start`; in both cases
`seekEndTime_ = streamLimits.end`. -/
def onStartStreamsWindow (live : Bool) (timeShiftBufferDepth : ℚ)
    (streamLimits : StreamLimits) : SeekWindow :=
  if live then
    { seekStartTime := max (streamLimits.end - timeShiftBufferDepth) streamLimits.start
      seekEndTime := streamLimits.end }
  else
    { seekStartTime := streamLimits.start
      seekEndTime := streamLimits.end }

/-- The seek-window advance in `onSeekRangeUpdate_` (lines 380-394):
`seekWindow = seekEndTime_ - seekStartTime_`; with `offset` the elapsed wall
time in seconds, if `seekWindow + offset > timeShiftBufferDepth_` both bounds
shift forward by `offset`, otherwise only `seekEndTime_` does. -/
def onSeekRangeUpdateWindow (timeShiftBufferDepth : ℚ) (w : SeekWindow)
    (offset : ℚ) : SeekWindow :=
  let seekWindow := w.seekEndTime - w.seekStartTime
  if seekWindow + offset > timeShiftBufferDepth then
    { seekStartTime := w.seekStartTime + offset
      seekEndTime := w.seekEndTime + offset }
  else
    { seekStartTime := w.seekStartTime
      seekEndTime := w.seekEndTime + offset }

/-- Iterated fires of the seek-range-update timer: fold
`onSeekRangeUpdateWindow` over a list of elapsed offsets. -/
def advanceSeq (timeShiftBufferDepth : ℚ) (w : SeekWindow)
    (offsets : List ℚ) : SeekWindow :=
  offsets.foldl (onSeekRangeUpdateWindow timeShiftBufferDepth) w

/-- Invariant maintained by the live window: `end ≥ start` and the width
never exceeds `timeShiftBufferDepth`. -/
def WindowInv (depth : ℚ) (w : SeekWindow) : Prop :=
  w.seekStartTime ≤ w.seekEndTime ∧ w.seekEndTime - w.seekStartTime ≤ depth

/-- Outcome of the seek validation in `onSeeking`: either the seek is
accepted (the base class resyncs the streams and the position is left
unchanged) or it is rejected and `video.currentTime` is set to the clamped
target time. -/
inductive SeekResult where
  | accepted (time : ℚ)
  | rejected (clampedTime : ℚ)
deriving DecidableEq, Repr

/-- `onSeeking` (lines 225-259): with `tolerance = 0.01`, a current time
within `[seekStartTime_ - tolerance, seekEndTime_ + tolerance]` is accepted
unchanged; otherwise the video's current time is clamped to `seekStartTime_`
when `currentTime < seekStartTime_`, else to `seekEndTime_`. -/
def onSeeking (w : SeekWindow) (currentTime : ℚ) : SeekResult :=
  let tolerance : ℚ := 1 / 100
  if currentTime ≥ w.seekStartTime - tolerance ∧
      currentTime ≤ w.seekEndTime + tolerance then
    .accepted currentTime
  else if currentTime < w.seekStartTime then
    .rejected w.seekStartTime
  else
    .rejected w.seekEndTime

/-- `onPlay_` (lines 266-268): resuming playback just replays the seek
validation on the current position. -/
def onPlay (w : SeekWindow) (currentTime : ℚ) : SeekResult :=
  onSeeking w currentTime

/-- One segment reference of a `SegmentIndex`; only its `startTime` is read
by this scheduler. -/
structure SegmentReference where
  startTime : ℚ
deriving DecidableEq, Repr

/-- A stream's segment index: an ordered sequence of segment references.
`getNumReferences()` is its length and `getReference(i)` returns the
reference at position `i`, or null when `i` is out of range. -/
structure SegmentIndex where
  references : List SegmentReference
deriving DecidableEq, Repr

def SegmentIndex.getNumReferences (si : SegmentIndex) : Nat :=
  si.references.length

def SegmentIndex.getReference (si : SegmentIndex) (i : Nat) :
    Option SegmentReference :=
  si.references.get? i

/-- A `StreamInfo`, of which the scheduler reads only the optional
`segmentIndex`. -/
structure StreamInfo where
  segmentIndex : Option SegmentIndex
deriving DecidableEq, Repr

/-- A `StreamSetInfo`: a list of `StreamInfo`. -/
structure StreamSetInfo where
  streamInfos : List StreamInfo
deriving DecidableEq, Repr

/-- A `PeriodInfo`: a list of `StreamSetInfo`. -/
structure PeriodInfo where
  streamSetInfos : List StreamSetInfo
deriving DecidableEq, Repr

/-- A `ManifestInfo` snapshot: whether the presentation is live, and the
period tree. -/
structure ManifestInfo where
  live : Bool
  periodInfos : List PeriodInfo
deriving DecidableEq, Repr

/-- The body of the `k` loop of `setTargetUpdateTime_` (lines 344-354):
streams without a segment index are skipped; otherwise the reference at
`Math.max(0, getNumReferences() - 2)` is read and, when it exists, its start
time is folded into the running maximum. (`Math.max(0, n - 2)` on JavaScript
numbers agrees with truncated subtraction on `Nat`.) -/
def streamInfoFoldMax (m : ℚ) (streamInfo : StreamInfo) : ℚ :=
  match streamInfo.segmentIndex with
  | none => m
  | some segmentIndex =>
      let index := max 0 (segmentIndex.getNumReferences - 2)
      match segmentIndex.getReference index with
      | none => m
      | some reference => max m reference.startTime

/-- `setTargetUpdateTime_` (lines 334-364): fold the running maximum `max`
(initialised to `0`) over every stream of every stream set of every period,
subtract the fixed `networkLatency = 2`, and store the result as the target
update time when it is `≥ 0`, else `null`. -/
def setTargetUpdateTime (manifestInfo : ManifestInfo) : Option ℚ :=
  let m := manifestInfo.periodInfos.foldl (fun acc periodInfo =>
    periodInfo.streamSetInfos.foldl (fun acc2 streamSetInfo =>
      streamSetInfo.streamInfos.foldl streamInfoFoldMax acc2) acc) 0
  let networkLatency : ℚ := 2
  let t := m - networkLatency
  if t ≥ 0 then some t else none

/-- The contribution of one stream to `setTargetUpdateTime_`: the start time
of the reference at `Math.max(0, getNumReferences() - 2)`, when the stream
has a segment index and that reference exists. -/
def pickStart (streamInfo : StreamInfo) : Option ℚ :=
  streamInfo.segmentIndex.bind (fun segmentIndex =>
    (segmentIndex.getReference
      (max 0 (segmentIndex.getNumReferences - 2))).map
      SegmentReference.startTime)

/-- The start times actually collected by `setTargetUpdateTime_`: for each
stream that has a segment index whose designated reference
(`Math.max(0, getNumReferences() - 2)`) exists, that reference's start
time. -/
def collectedStarts (manifestInfo : ManifestInfo) : List ℚ :=
  manifestInfo.periodInfos.flatMap (fun periodInfo =>
    periodInfo.streamSetInfos.flatMap (fun streamSetInfo =>
      streamSetInfo.streamInfos.filterMap pickStart))

/-- The number of segment references a stream holds (`0` when it has no
segment index). -/
def streamRefCount (streamInfo : StreamInfo) : Nat :=
  (streamInfo.segmentIndex.map SegmentIndex.getNumReferences).getD 0

/-- The snapshot of the spec's estimator example: one period, one stream
set, two streams with segment-reference start times `[10,20,30]` and
`[15,25]`. -/
def exampleSnapshot : ManifestInfo :=
  { live := true
    periodInfos := [
      { streamSetInfos := [
          { streamInfos := [
              { segmentIndex := some { references := [⟨10⟩, ⟨20⟩, ⟨30⟩] } },
              { segmentIndex := some { references := [⟨15⟩, ⟨25⟩] } }] }] }] }

/-- A snapshot in which the only stream holds a single segment reference,
with start time `10`. -/
def snapshotOneRef : ManifestInfo :=
  { live := true
    periodInfos := [
      { streamSetInfos := [
          { streamInfos := [
              { segmentIndex := some { references := [⟨10⟩] } }] }] }] }

/-- A snapshot with one stream whose segment index is empty and one stream
without a segment index: no reference start time is collected at all. -/
def snapshotNoRefs : ManifestInfo :=
  { live := true
    periodInfos := [
      { streamSetInfos := [
          { streamInfos := [
              { segmentIndex := some { references := [] } },
              { segmentIndex := none }] }] }] }

/-- A snapshot whose only stream has a single reference starting at `2`:
`setTargetUpdateTime_` computes `t = 2 - 2 = 0`, a defined target of `0`. -/
def snapshotTargetZero : ManifestInfo :=
  { live := true
    periodInfos := [
      { streamSetInfos := [
          { streamInfos := [
              { segmentIndex := some { references := [⟨2⟩] } }] }] }] }

/-- The refresh decision taken by `onSeekRangeUpdate_` after advancing the
window (lines 396-407): `onUpdate_()` is invoked exactly when
`if (this.targetUpdateTime_ && (this.seekEndTime_ >= this.targetUpdateTime_))`
holds — JavaScript truthiness, under which both `null` and `0` are falsy —
and `secondsSinceLastUpdate >= MIN_UPDATE_INTERVAL_`. -/
def shouldTriggerUpdate (targetUpdateTime : Option ℚ) (seekEndTime : ℚ)
    (secondsSinceLastUpdate : ℚ) : Bool :=
  match targetUpdateTime with
  | none => false
  | some t =>
      decide (t ≠ 0) && decide (seekEndTime ≥ t) &&
        decide (secondsSinceLastUpdate ≥ MIN_UPDATE_INTERVAL)

/-- An MPD as seen by this scheduler after `MpdProcessor.process`: the
optional `@timeShiftBufferDepth` and `@minUpdatePeriod` attributes and the
processed `manifestInfo`. -/
structure Mpd where
  timeShiftBufferDepth : Option ℚ
  minUpdatePeriod : Option ℚ
  manifestInfo : ManifestInfo
deriving DecidableEq, Repr

/-- The mutable scheduler state of `DashVideoSource`: the current manifest
snapshot, `timeShiftBufferDepth_`, the seek window, `targetUpdateTime_`,
`lastMpdFetchTime_`, and whether each of `updateTimer_` and
`seekRangeUpdateTimer_` currently holds a live handle. -/
structure SourceState where
  manifestInfo : ManifestInfo
  timeShiftBufferDepth : ℚ
  seekStartTime : ℚ
  seekEndTime : ℚ
  targetUpdateTime : Option ℚ
  lastMpdFetchTime : Option ℚ
  updateTimerArmed : Bool
  seekRangeUpdateTimerArmed : Bool
deriving DecidableEq, Repr

/-- `cancelUpdateTimer_` (lines 447-452): clears the update timer; when no
timer is set the body is skipped, so the call is a no-op. -/
def cancelUpdateTimer (s : SourceState) : SourceState :=
  { s with updateTimerArmed := false }

/-- `cancelSeekRangeUpdateTimer_` (lines 459-465): clears the seek-range
update timer; a no-op when no timer is set. -/
def cancelSeekRangeUpdateTimer (s : SourceState) : SourceState :=
  { s with seekRangeUpdateTimerArmed := false }

/-- The scheduler-state part of `destroy` (lines 117-123): cancel both
timers unconditionally. -/
def destroy (s : SourceState) : SourceState :=
  cancelSeekRangeUpdateTimer (cancelUpdateTimer s)

/-- `setUpdateTimer_` (lines 313-325): arms the update timer (for
`max(minUpdatePeriod, MIN_UPDATE_INTERVAL_)` seconds). -/
def setUpdateTimer (s : SourceState) : SourceState :=
  { s with updateTimerArmed := true }

/-- The synchronous prefix of `onUpdate_` (lines 275-289), run before the
MPD request is sent: cancel the update timer and record the fetch wall
time. -/
def onUpdateStart (now : ℚ) (s : SourceState) : SourceState :=
  { cancelUpdateTimer s with lastMpdFetchTime := some now }

/-- A failed `onUpdate_` fetch: `mpdRequest.send()` rejects, the success
callback (lines 291-304) never runs, and no rejection handler exists, so
nothing further happens to the state. -/
def onUpdateFailed (s : SourceState) : SourceState :=
  s

/-- The fetch-completion callback of `onUpdate_` (lines 291-304): store the
new `timeShiftBufferDepth` (defaulting to 0), replace the manifest snapshot
via `updateManifest`, rearm the update timer via `setUpdateTimer_`, and
recompute the target update time. The callback consults no liveness flag. -/
def onUpdateSuccess (mpd : Mpd) (s : SourceState) : SourceState :=
  let s1 := { s with timeShiftBufferDepth := mpd.timeShiftBufferDepth.getD 0
                     manifestInfo := mpd.manifestInfo }
  let s2 := setUpdateTimer s1
  { s2 with targetUpdateTime := setTargetUpdateTime s2.manifestInfo }

/-- A live scheduler state with both timers armed, used to exhibit the
behaviour of a fetch completion that fires after teardown. -/
def exampleLiveState : SourceState :=
  { manifestInfo := snapshotOneRef
    timeShiftBufferDepth := 0
    seekStartTime := 10
    seekEndTime := 50
    targetUpdateTime := some 8
    lastMpdFetchTime := some 100
    updateTimerArmed := true
    seekRangeUpdateTimerArmed := true }

/-- An MPD arriving from a refresh fetch: `@timeShiftBufferDepth = 7`,
`@minUpdatePeriod = 5`, and a processed manifest with no periods. -/
def exampleRefreshMpd : Mpd :=
  { timeShiftBufferDepth := some 7
    minUpdatePeriod := some 5
    manifestInfo := { live := true, periodInfos := [] } }

end DashVideoSource

namespace DashVideoSource

/-- **C1.** For every seek window with width `w = end - start ≥ 0` and every
`elapsed ≥ 0`, the advance step shifts both `start` and `end` forward by
`elapsed` when `w + elapsed > timeShiftBufferDepth`, and otherwise shifts only
`end`; in particular from window `[10,50]` with `timeShiftBufferDepth = 40`,
advancing by `5` yields `[15,55]`. -/
theorem c1_advance_step (depth : ℚ) (w : SeekWindow) (elapsed : ℚ)
    (hw : w.seekStartTime ≤ w.seekEndTime) (he : 0 ≤ elapsed) :
    ((w.seekEndTime - w.seekStartTime) + elapsed > depth →
        onSeekRangeUpdateWindow depth w elapsed =
          { seekStartTime := w.seekStartTime + elapsed
            seekEndTime := w.seekEndTime + elapsed }) ∧
    (¬ ((w.seekEndTime - w.seekStartTime) + elapsed > depth) →
        onSeekRangeUpdateWindow depth w elapsed =
          { seekStartTime := w.seekStartTime
            seekEndTime := w.seekEndTime + elapsed }) ∧
    onSeekRangeUpdateWindow 40 ⟨10, 50⟩ 5 = ⟨15, 55⟩ := by
  refine ⟨fun h => ?_, fun h => ?_, ?_⟩
  · simp only [onSeekRangeUpdateWindow, if_pos h]
  · simp only [onSeekRangeUpdateWindow, if_neg h]
  · show (if (50 : ℚ) - 10 + 5 > 40 then _ else _) = _
    norm_num

/-- Witness for C1 at window `[10,50]`, depth `40`, elapsed `5`: the
hypotheses `10 ≤ 50` and `0 ≤ 5` hold and the advance from `[10,50]`
yields `[15,55]`. -/
theorem c1_advance_step_witness :
    onSeekRangeUpdateWindow 40 ⟨10, 50⟩ 5 = ⟨15, 55⟩ :=
  (c1_advance_step 40 ⟨10, 50⟩ 5 (by decide) (by decide)).2.2

lemma windowInv_init (streamsStart streamsEnd depth : ℚ)
    (hse : streamsStart ≤ streamsEnd) (hd : 0 ≤ depth) :
    WindowInv depth (onStartStreamsWindow true depth ⟨streamsStart, streamsEnd⟩) := by
  constructor
  · show max (streamsEnd - depth) streamsStart ≤ streamsEnd
    exact max_le (by linarith) hse
  · show streamsEnd - max (streamsEnd - depth) streamsStart ≤ depth
    have h := le_max_left (streamsEnd - depth) streamsStart
    linarith

lemma windowInv_step (depth : ℚ) (w : SeekWindow) (e : ℚ) (he : 0 ≤ e)
    (hw : WindowInv depth w) :
    WindowInv depth (onSeekRangeUpdateWindow depth w e) := by
  obtain ⟨h1, h2⟩ := hw
  simp only [onSeekRangeUpdateWindow]
  by_cases h : w.seekEndTime - w.seekStartTime + e > depth
  · rw [if_pos h]
    exact ⟨by simpa using by linarith, by simp; linarith⟩
  · rw [if_neg h]
    push_neg at h
    exact ⟨by simp; linarith, by simp; linarith⟩

lemma windowInv_seq (depth : ℚ) (offsets : List ℚ)
    (hoffs : ∀ e ∈ offsets, 0 ≤ e) (w : SeekWindow) (hw : WindowInv depth w) :
    WindowInv depth (advanceSeq depth w offsets) := by
  induction offsets generalizing w with
  | nil => exact hw
  | cons e rest ih =>
      exact ih (fun x hx => hoffs x (List.mem_cons_of_mem e hx))
        (onSeekRangeUpdateWindow depth w e)
        (windowInv_step depth w e (hoffs e (List.mem_cons_self e rest)) hw)

lemma window_step_mono (depth : ℚ) (w : SeekWindow) (e : ℚ) (he : 0 ≤ e) :
    w.seekStartTime ≤ (onSeekRangeUpdateWindow depth w e).seekStartTime ∧
    w.seekEndTime ≤ (onSeekRangeUpdateWindow depth w e).seekEndTime ∧
    w.seekEndTime - w.seekStartTime ≤
      (onSeekRangeUpdateWindow depth w e).seekEndTime -
        (onSeekRangeUpdateWindow depth w e).seekStartTime := by
  simp only [onSeekRangeUpdateWindow]
  by_cases h : w.seekEndTime - w.seekStartTime + e > depth
  · rw [if_pos h]
    exact ⟨by simp; linarith, by simp; linarith, by simp⟩
  · rw [if_neg h]
    exact ⟨by simp, by simp; linarith, by simp; linarith⟩

/-- **C2.** From the live initial window
`[max(streamsEnd - timeShiftBufferDepth, streamsStart), streamsEnd]`, under
any sequence of advances by non-negative offsets followed by one more such
advance: `end ≥ start` always holds, `start` and `end` never decrease, the
width is non-decreasing, and the width never exceeds
`timeShiftBufferDepth` (in particular it stays bounded by that depth once it
has reached it). -/
theorem c2_window_invariants (streamsStart streamsEnd depth : ℚ)
    (hse : streamsStart ≤ streamsEnd) (hd : 0 ≤ depth)
    (offsets : List ℚ) (hoffs : ∀ e ∈ offsets, 0 ≤ e) (e : ℚ) (he : 0 ≤ e) :
    (advanceSeq depth (onStartStreamsWindow true depth
        ⟨streamsStart, streamsEnd⟩) offsets).seekStartTime ≤
      (advanceSeq depth (onStartStreamsWindow true depth
        ⟨streamsStart, streamsEnd⟩) offsets).seekEndTime ∧
    (advanceSeq depth (onStartStreamsWindow true depth
        ⟨streamsStart, streamsEnd⟩) offsets).seekStartTime ≤
      (onSeekRangeUpdateWindow depth (advanceSeq depth (onStartStreamsWindow
        true depth ⟨streamsStart, streamsEnd⟩) offsets) e).seekStartTime ∧
    (advanceSeq depth (onStartStreamsWindow true depth
        ⟨streamsStart, streamsEnd⟩) offsets).seekEndTime ≤
      (onSeekRangeUpdateWindow depth (advanceSeq depth (onStartStreamsWindow
        true depth ⟨streamsStart, streamsEnd⟩) offsets) e).seekEndTime ∧
    (onSeekRangeUpdateWindow depth (advanceSeq depth (onStartStreamsWindow
        true depth ⟨streamsStart, streamsEnd⟩) offsets) e).seekStartTime ≤
      (onSeekRangeUpdateWindow depth (advanceSeq depth (onStartStreamsWindow
        true depth ⟨streamsStart, streamsEnd⟩) offsets) e).seekEndTime ∧
    (advanceSeq depth (onStartStreamsWindow true depth
        ⟨streamsStart, streamsEnd⟩) offsets).seekEndTime -
      (advanceSeq depth (onStartStreamsWindow true depth
        ⟨streamsStart, streamsEnd⟩) offsets).seekStartTime ≤
      (onSeekRangeUpdateWindow depth (advanceSeq depth (onStartStreamsWindow
        true depth ⟨streamsStart, streamsEnd⟩) offsets) e).seekEndTime -
      (onSeekRangeUpdateWindow depth (advanceSeq depth (onStartStreamsWindow
        true depth ⟨streamsStart, streamsEnd⟩) offsets) e).seekStartTime ∧
    (advanceSeq depth (onStartStreamsWindow true depth
        ⟨streamsStart, streamsEnd⟩) offsets).seekEndTime -
      (advanceSeq depth (onStartStreamsWindow true depth
        ⟨streamsStart, streamsEnd⟩) offsets).seekStartTime ≤ depth ∧
    (onSeekRangeUpdateWindow depth (advanceSeq depth (onStartStreamsWindow
        true depth ⟨streamsStart, streamsEnd⟩) offsets) e).seekEndTime -
      (onSeekRangeUpdateWindow depth (advanceSeq depth (onStartStreamsWindow
        true depth ⟨streamsStart, streamsEnd⟩) offsets) e).seekStartTime ≤
      depth := by
  have hinv := windowInv_seq depth offsets hoffs _
    (windowInv_init streamsStart streamsEnd depth hse hd)
  have hinv' := windowInv_step depth _ e he hinv
  have hmono := window_step_mono depth
    (advanceSeq depth (onStartStreamsWindow true depth
      ⟨streamsStart, streamsEnd⟩) offsets) e he
  exact ⟨hinv.1, hmono.1, hmono.2.1, hinv'.1, hmono.2.2, hinv.2, hinv'.2⟩

/-- Witness for C2: stream limits `[0,50]`, depth `40`, advances by
`[5, 5]` and then one more advance by `5`; all hypotheses hold and the
invariants follow. -/
theorem c2_window_invariants_witness :
    ((0:ℚ) ≤ 50 ∧ (0:ℚ) ≤ 40 ∧ (∀ e ∈ [(5:ℚ), 5], 0 ≤ e) ∧ (0:ℚ) ≤ 5) ∧
    (advanceSeq 40 (onStartStreamsWindow true 40 ⟨0, 50⟩)
        [5, 5]).seekStartTime ≤
      (advanceSeq 40 (onStartStreamsWindow true 40 ⟨0, 50⟩)
        [5, 5]).seekEndTime :=
  ⟨⟨by decide, by decide, by decide, by decide⟩,
    (c2_window_invariants 0 50 40 (by decide) (by decide) [5, 5]
      (by decide) 5 (by decide)).1⟩

/-- **C8, counterexample.** The window `[0,39]` has width `39`, strictly
below `timeShiftBufferDepth = 40`, and `5 > 0`; yet advancing by `5` slides
the window to `[5,44]` without increasing its width: `39 + 5 > 40`, so the
code takes the sliding branch and the width stays `39`. -/
theorem c8_counterexample :
    (⟨0, 39⟩ : SeekWindow).seekEndTime -
        (⟨0, 39⟩ : SeekWindow).seekStartTime < 40 ∧
    (0:ℚ) < 5 ∧
    onSeekRangeUpdateWindow 40 ⟨0, 39⟩ 5 = ⟨5, 44⟩ ∧
    ¬ ((⟨0, 39⟩ : SeekWindow).seekEndTime -
          (⟨0, 39⟩ : SeekWindow).seekStartTime <
        (onSeekRangeUpdateWindow 40 ⟨0, 39⟩ 5).seekEndTime -
          (onSeekRangeUpdateWindow 40 ⟨0, 39⟩ 5).seekStartTime) := by
  have h : onSeekRangeUpdateWindow 40 ⟨0, 39⟩ 5 = (⟨5, 44⟩ : SeekWindow) := by
    simp only [onSeekRangeUpdateWindow]
    norm_num
  refine ⟨by norm_num, by norm_num, h, ?_⟩
  rw [h]
  norm_num

/-- **C8, amended.** For every window with `start ≤ end` and every
`elapsed > 0`: when width `+ elapsed ≤ timeShiftBufferDepth` the advance
strictly increases the width, by exactly `elapsed`; when
width `+ elapsed > timeShiftBufferDepth` the advance leaves the width
unchanged and slides both bounds forward by `elapsed` — so a window below
the depth keeps growing only while a whole advance step still fits, and a
step that overshoots the depth freezes the width (possibly strictly below
the depth) and slides from then on. -/
theorem c8_growth_amended (depth : ℚ) (w : SeekWindow) (e : ℚ)
    (hw : w.seekStartTime ≤ w.seekEndTime) (he : 0 < e) :
    ((w.seekEndTime - w.seekStartTime) + e ≤ depth →
      (onSeekRangeUpdateWindow depth w e).seekEndTime -
          (onSeekRangeUpdateWindow depth w e).seekStartTime =
        (w.seekEndTime - w.seekStartTime) + e ∧
      w.seekEndTime - w.seekStartTime <
        (onSeekRangeUpdateWindow depth w e).seekEndTime -
          (onSeekRangeUpdateWindow depth w e).seekStartTime) ∧
    ((w.seekEndTime - w.seekStartTime) + e > depth →
      (onSeekRangeUpdateWindow depth w e).seekEndTime -
          (onSeekRangeUpdateWindow depth w e).seekStartTime =
        w.seekEndTime - w.seekStartTime ∧
      (onSeekRangeUpdateWindow depth w e).seekStartTime =
        w.seekStartTime + e ∧
      (onSeekRangeUpdateWindow depth w e).seekEndTime =
        w.seekEndTime + e) := by
  constructor
  · intro h
    have hc : ¬ (w.seekEndTime - w.seekStartTime + e > depth) := by linarith
    simp only [onSeekRangeUpdateWindow, if_neg hc]
    constructor
    · ring
    · linarith
  · intro h
    simp only [onSeekRangeUpdateWindow, if_pos h]
    exact ⟨by ring, trivial, trivial⟩

/-- Witness for C8 (amended) at window `[0,10]`, depth `40`, elapsed `5`:
the hypotheses `0 ≤ 10` and `0 < 5` hold, and both branch implications are
obtained from the theorem. -/
theorem c8_growth_amended_witness :
    ((0:ℚ) ≤ 10 ∧ (0:ℚ) < 5) ∧
    ((((10:ℚ) - 0) + 5 ≤ 40 →
      (onSeekRangeUpdateWindow 40 ⟨0, 10⟩ 5).seekEndTime -
          (onSeekRangeUpdateWindow 40 ⟨0, 10⟩ 5).seekStartTime =
        ((10:ℚ) - 0) + 5 ∧
      (10:ℚ) - 0 <
        (onSeekRangeUpdateWindow 40 ⟨0, 10⟩ 5).seekEndTime -
          (onSeekRangeUpdateWindow 40 ⟨0, 10⟩ 5).seekStartTime) ∧
    (((10:ℚ) - 0) + 5 > 40 →
      (onSeekRangeUpdateWindow 40 ⟨0, 10⟩ 5).seekEndTime -
          (onSeekRangeUpdateWindow 40 ⟨0, 10⟩ 5).seekStartTime =
        (10:ℚ) - 0 ∧
      (onSeekRangeUpdateWindow 40 ⟨0, 10⟩ 5).seekStartTime = (0:ℚ) + 5 ∧
      (onSeekRangeUpdateWindow 40 ⟨0, 10⟩ 5).seekEndTime = (10:ℚ) + 5)) :=
  ⟨⟨by decide, by decide⟩, c8_growth_amended 40 ⟨0, 10⟩ 5 (by decide) (by decide)⟩

/-- **C5.** With tolerance `0.01`: a requested time within
`[start - 0.01, end + 0.01]` is accepted unchanged; a time below
`start - 0.01` is rejected and clamped to `start`; a time above
`end + 0.01` is rejected and clamped to `end`; and the play callback
(`onPlay_`) applies exactly this validation to the current position. -/
theorem c5_seek_validation (w : SeekWindow) (t : ℚ)
    (hw : w.seekStartTime ≤ w.seekEndTime) :
    ((w.seekStartTime - 1 / 100 ≤ t ∧ t ≤ w.seekEndTime + 1 / 100) →
        onSeeking w t = .accepted t) ∧
    (t < w.seekStartTime - 1 / 100 →
        onSeeking w t = .rejected w.seekStartTime) ∧
    (t > w.seekEndTime + 1 / 100 →
        onSeeking w t = .rejected w.seekEndTime) ∧
    onPlay w t = onSeeking w t := by
  refine ⟨fun h => ?_, fun h => ?_, fun h => ?_, rfl⟩
  · have hc : t ≥ w.seekStartTime - 1 / 100 ∧ t ≤ w.seekEndTime + 1 / 100 :=
      ⟨h.1, h.2⟩
    simp only [onSeeking, if_pos hc]
  · have hc1 : ¬ (t ≥ w.seekStartTime - 1 / 100 ∧
        t ≤ w.seekEndTime + 1 / 100) := by
      rintro ⟨h1, h2⟩
      linarith
    have hc2 : t < w.seekStartTime := by linarith
    simp only [onSeeking, if_neg hc1, if_pos hc2]
  · have hc1 : ¬ (t ≥ w.seekStartTime - 1 / 100 ∧
        t ≤ w.seekEndTime + 1 / 100) := by
      rintro ⟨h1, h2⟩
      linarith
    have hc2 : ¬ (t < w.seekStartTime) := by
      push_neg
      linarith
    simp only [onSeeking, if_neg hc1, if_neg hc2]

/-- Witness for C5 at window `[5,100]` and requested time `7`: the
hypothesis `5 ≤ 100` holds and the validation trichotomy follows. -/
theorem c5_seek_validation_witness :
    (5:ℚ) ≤ 100 ∧
    ((((5:ℚ) - 1 / 100 ≤ 7 ∧ (7:ℚ) ≤ 100 + 1 / 100) →
        onSeeking ⟨5, 100⟩ 7 = .accepted 7) ∧
      ((7:ℚ) < 5 - 1 / 100 → onSeeking ⟨5, 100⟩ 7 = .rejected 5) ∧
      ((7:ℚ) > 100 + 1 / 100 → onSeeking ⟨5, 100⟩ 7 = .rejected 100) ∧
      onPlay ⟨5, 100⟩ 7 = onSeeking ⟨5, 100⟩ 7) :=
  ⟨by decide, c5_seek_validation ⟨5, 100⟩ 7 (by decide)⟩

/-- **C6, counterexample.** On window `[5,100]` with tolerance `0.01`, the
requested time `4.98` lies below `start - tolerance = 4.99`, so the code
rejects it and clamps to `5` — it is not accepted as the claim states. -/
theorem c6_counterexample :
    onSeeking ⟨5, 100⟩ (249 / 50) = .rejected 5 ∧
    onSeeking ⟨5, 100⟩ (249 / 50) ≠ .accepted (249 / 50) := by
  have h : onSeeking ⟨5, 100⟩ (249 / 50) = SeekResult.rejected 5 := by
    simp only [onSeeking]
    norm_num
  refine ⟨h, ?_⟩
  rw [h]
  decide

/-- **C6, amended.** With seek window `[5,100]` and tolerance `0.01`:
`validate(5.0)` is accepted, `validate(4.98)` is rejected with clamped time
`5` (it lies below `start - tolerance = 4.99`), `validate(4.0)` is rejected
with clamped time `5`, and `validate(150)` is rejected with clamped time
`100`. -/
theorem c6_examples_amended :
    onSeeking ⟨5, 100⟩ 5 = .accepted 5 ∧
    onSeeking ⟨5, 100⟩ (249 / 50) = .rejected 5 ∧
    onSeeking ⟨5, 100⟩ 4 = .rejected 5 ∧
    onSeeking ⟨5, 100⟩ 150 = .rejected 100 := by
  refine ⟨?_, ?_, ?_, ?_⟩ <;>
    · simp only [onSeeking]
      norm_num

lemma streamInfoFoldMax_pick (m : ℚ) (s : StreamInfo) :
    streamInfoFoldMax m s = ((pickStart s).map (fun x => max m x)).getD m := by
  obtain ⟨osi⟩ := s
  cases osi with
  | none => rfl
  | some si =>
      cases h : si.getReference (max 0 (si.getNumReferences - 2)) with
      | none =>
          simp only [Nat.zero_max] at h
          simp [streamInfoFoldMax, pickStart, h]
      | some r =>
          simp only [Nat.zero_max] at h
          simp [streamInfoFoldMax, pickStart, h]

lemma foldl_streamInfoFoldMax (l : List StreamInfo) (acc : ℚ) :
    l.foldl streamInfoFoldMax acc = (l.filterMap pickStart).foldl max acc := by
  induction l generalizing acc with
  | nil => rfl
  | cons s rest ih =>
      rw [List.foldl_cons, streamInfoFoldMax_pick]
      cases h : pickStart s with
      | none =>
          rw [List.filterMap_cons_none h]
          simpa using ih acc
      | some x =>
          rw [List.filterMap_cons_some h, List.foldl_cons]
          simpa using ih (max acc x)

lemma foldl_max_flatMap {α : Type} (f : α → List ℚ) (g : ℚ → α → ℚ)
    (hg : ∀ acc x, g acc x = (f x).foldl max acc)
    (l : List α) (acc : ℚ) :
    l.foldl g acc = (l.flatMap f).foldl max acc := by
  induction l generalizing acc with
  | nil => rfl
  | cons x rest ih =>
      rw [List.foldl_cons, List.flatMap_cons, List.foldl_append, hg, ih]

/-- The triple loop of `setTargetUpdateTime_` computes the fold of `max`
over the collected start times, starting from `0`. -/
lemma setTargetUpdateTime_eq (manifestInfo : ManifestInfo) :
    setTargetUpdateTime manifestInfo =
      if (collectedStarts manifestInfo).foldl max 0 - 2 ≥ 0 then
        some ((collectedStarts manifestInfo).foldl max 0 - 2)
      else none := by
  have hloop : manifestInfo.periodInfos.foldl (fun acc periodInfo =>
      periodInfo.streamSetInfos.foldl (fun acc2 streamSetInfo =>
        streamSetInfo.streamInfos.foldl streamInfoFoldMax acc2) acc) 0 =
      (collectedStarts manifestInfo).foldl max 0 := by
    unfold collectedStarts
    refine foldl_max_flatMap _ _ (fun acc p => ?_) _ 0
    refine foldl_max_flatMap _ _ (fun acc2 ss => ?_) _ acc
    exact foldl_streamInfoFoldMax ss.streamInfos acc2
  unfold setTargetUpdateTime
  rw [hloop]

lemma le_foldl_max_init (l : List ℚ) (acc : ℚ) : acc ≤ l.foldl max acc := by
  induction l generalizing acc with
  | nil => exact le_refl acc
  | cons x rest ih =>
      rw [List.foldl_cons]
      exact le_trans (le_max_left acc x) (ih (max acc x))

lemma le_foldl_max_mem (l : List ℚ) (acc x : ℚ) (hx : x ∈ l) :
    x ≤ l.foldl max acc := by
  induction l generalizing acc with
  | nil => cases hx
  | cons y rest ih =>
      rw [List.foldl_cons]
      rcases List.mem_cons.mp hx with h | h
      · subst h
        exact le_trans (le_max_right acc x) (le_foldl_max_init rest _)
      · exact ih _ h

lemma foldl_max_le (l : List ℚ) (acc b : ℚ) (hacc : acc ≤ b)
    (h : ∀ x ∈ l, x ≤ b) : l.foldl max acc ≤ b := by
  induction l generalizing acc with
  | nil => exact hacc
  | cons y rest ih =>
      rw [List.foldl_cons]
      exact ih (max acc y)
        (max_le hacc (h y (List.mem_cons_self y rest)))
        (fun x hx => h x (List.mem_cons_of_mem y hx))

lemma foldl_max_lt (l : List ℚ) (acc b : ℚ) (hacc : acc < b)
    (h : ∀ x ∈ l, x < b) : l.foldl max acc < b := by
  induction l generalizing acc with
  | nil => exact hacc
  | cons y rest ih =>
      rw [List.foldl_cons]
      exact ih (max acc y) (max_lt hacc (h y (List.mem_cons_self y rest)))
        (fun x hx => h x (List.mem_cons_of_mem y hx))

lemma foldl_max_eq_max (l : List ℚ) (acc m : ℚ) (hmem : m ∈ l)
    (hmax : ∀ x ∈ l, x ≤ m) : l.foldl max acc = max acc m :=
  le_antisymm
    (foldl_max_le l acc (max acc m) (le_max_left acc m)
      (fun x hx => le_trans (hmax x hx) (le_max_right acc m)))
    (max_le (le_foldl_max_init l acc) (le_foldl_max_mem l acc m hmem))

/-- **C3.** When `m` is the maximum start time collected over all streams
that have a (non-exhausted) segment index — each contributing the start
time of its reference at `Math.max(0, referenceCount - 2)` —
`setTargetUpdateTime_` stores `m - 2` when `m - 2 ≥ 0` and `null`
otherwise; on the spec's example snapshot (start times `[10,20,30]` and
`[15,25]`) it stores `max(20, 15) - 2 = 18`. -/
theorem c3_target_estimate (manifestInfo : ManifestInfo) (m : ℚ)
    (hmem : m ∈ collectedStarts manifestInfo)
    (hmax : ∀ x ∈ collectedStarts manifestInfo, x ≤ m) :
    setTargetUpdateTime manifestInfo =
      (if m - 2 ≥ 0 then some (m - 2) else none) ∧
    setTargetUpdateTime exampleSnapshot = some 18 := by
  constructor
  · rw [setTargetUpdateTime_eq,
      foldl_max_eq_max (collectedStarts manifestInfo) 0 m hmem hmax]
    by_cases h2 : m - 2 ≥ 0
    · rw [max_eq_right (by linarith : (0:ℚ) ≤ m)]
    · have hne : ¬ (max 0 m - 2 ≥ 0) := by
        rcases le_total m 0 with hm | hm
        · rw [max_eq_left hm]
          norm_num
        · rw [max_eq_right hm]
          exact h2
      rw [if_neg hne, if_neg h2]
  · have hc : collectedStarts exampleSnapshot = [20, 15] := rfl
    rw [setTargetUpdateTime_eq, hc,
      foldl_max_eq_max [20, 15] 0 20 (by norm_num)
        (by intro x hx; rcases List.mem_pair.mp hx with h | h <;> norm_num [h]),
      max_eq_right (by norm_num : (0:ℚ) ≤ 20)]
    norm_num

/-- Witness for C3 on the example snapshot: `20` is the maximum collected
start time, and the estimator yields `20 - 2 = 18`. -/
theorem c3_target_estimate_witness :
    ((20:ℚ) ∈ collectedStarts exampleSnapshot ∧
      ∀ x ∈ collectedStarts exampleSnapshot, x ≤ 20) ∧
    (setTargetUpdateTime exampleSnapshot =
        (if (20:ℚ) - 2 ≥ 0 then some (20 - 2) else none) ∧
      setTargetUpdateTime exampleSnapshot = some 18) :=
  ⟨⟨by decide, by decide⟩,
    c3_target_estimate exampleSnapshot 20 (by decide) (by decide)⟩

/-- **C4, counterexample.** In `snapshotOneRef` every stream has at most
one segment reference, yet the estimator returns `8`, not `null`: the only
stream's single reference (index `max(0, 1 - 2) = 0`) starts at `10`, so
`t = 10 - 2 = 8 ≥ 0`. -/
theorem c4_counterexample :
    (∀ p ∈ snapshotOneRef.periodInfos, ∀ ss ∈ p.streamSetInfos,
      ∀ s ∈ ss.streamInfos, streamRefCount s ≤ 1) ∧
    setTargetUpdateTime snapshotOneRef = some 8 ∧
    setTargetUpdateTime snapshotOneRef ≠ none := by
  have h : setTargetUpdateTime snapshotOneRef = some 8 := by
    have hc : collectedStarts snapshotOneRef = [10] := rfl
    rw [setTargetUpdateTime_eq, hc,
      foldl_max_eq_max [10] 0 10 (by norm_num) (by simp),
      max_eq_right (by norm_num : (0:ℚ) ≤ 10)]
    norm_num
  refine ⟨by decide, h, ?_⟩
  rw [h]
  decide

/-- **C4, amended.** The estimator returns `null` exactly when every
collected reference start time is below the 2-second network-latency
allowance; in particular it returns `null` for every snapshot in which no
stream contributes a reference start time at all (every stream has zero
segment references or no segment index). -/
theorem c4_null_amended (manifestInfo : ManifestInfo)
    (h : ∀ x ∈ collectedStarts manifestInfo, x < 2) :
    setTargetUpdateTime manifestInfo = none := by
  rw [setTargetUpdateTime_eq]
  have hlt : (collectedStarts manifestInfo).foldl max 0 < 2 :=
    foldl_max_lt _ 0 2 (by norm_num) h
  have hneg : ¬ ((collectedStarts manifestInfo).foldl max 0 - 2 ≥ 0) := by
    push_neg
    linarith
  rw [if_neg hneg]

/-- Witness for C4 (amended) on `snapshotNoRefs`, where no stream
contributes any reference start time: the estimator returns `null`. -/
theorem c4_null_amended_witness :
    (∀ x ∈ collectedStarts snapshotNoRefs, x < 2) ∧
    setTargetUpdateTime snapshotNoRefs = none :=
  ⟨by decide, c4_null_amended snapshotNoRefs (by decide)⟩

/-- **C7.** Evaluation of the refresh decision of `onSeekRangeUpdate_` at
the failing input: `snapshotTargetZero` yields the defined target update
time `0`; with window end `10 ≥ 0` and `5 ≥ MIN_UPDATE_INTERVAL = 3`
seconds since the last fetch, the claim requires a refresh, but the code's
truthy guard `if (this.targetUpdateTime_ && ...)` treats the defined target
`0` as absent and skips it. A nonzero crossed target with `≥ 3` elapsed
seconds does trigger, and a crossed target within `3` seconds does not. -/
theorem c7_zero_target_skips_refresh :
    setTargetUpdateTime snapshotTargetZero = some 0 ∧
    (10:ℚ) ≥ 0 ∧ (5:ℚ) ≥ MIN_UPDATE_INTERVAL ∧
    shouldTriggerUpdate (some 0) 10 5 = false ∧
    shouldTriggerUpdate (some 4) 10 5 = true ∧
    shouldTriggerUpdate (some 4) 10 2 = false := by
  have h : setTargetUpdateTime snapshotTargetZero = some 0 := by
    have hc : collectedStarts snapshotTargetZero = [2] := rfl
    rw [setTargetUpdateTime_eq, hc,
      foldl_max_eq_max [2] 0 2 (by norm_num) (by simp),
      max_eq_right (by norm_num : (0:ℚ) ≤ 2)]
    norm_num
  exact ⟨h, by decide, by decide, by decide, by decide, by decide⟩

/-- **C9.** A failed refresh fetch (`onUpdate_` runs its synchronous
prefix, then `mpdRequest.send()` rejects and the success callback never
runs) does not corrupt the scheduler's state: the manifest snapshot, the
seek window, `timeShiftBufferDepth_` and `targetUpdateTime_` are unchanged,
no timer is (re)armed — the update timer is left cancelled and the
seek-range timer untouched — so the previous window and snapshot remain in
place for a later scheduled attempt. -/
theorem c9_failed_update_preserves_state (s : SourceState) (now : ℚ) :
    (onUpdateFailed (onUpdateStart now s)).manifestInfo = s.manifestInfo ∧
    (onUpdateFailed (onUpdateStart now s)).seekStartTime = s.seekStartTime ∧
    (onUpdateFailed (onUpdateStart now s)).seekEndTime = s.seekEndTime ∧
    (onUpdateFailed (onUpdateStart now s)).timeShiftBufferDepth =
      s.timeShiftBufferDepth ∧
    (onUpdateFailed (onUpdateStart now s)).targetUpdateTime =
      s.targetUpdateTime ∧
    (onUpdateFailed (onUpdateStart now s)).updateTimerArmed = false ∧
    (onUpdateFailed (onUpdateStart now s)).seekRangeUpdateTimerArmed =
      s.seekRangeUpdateTimerArmed :=
  ⟨rfl, rfl, rfl, rfl, rfl, rfl, rfl⟩

/-- Witness for C9 at the concrete state `exampleLiveState` and fetch time
`123`: the failed attempt leaves every state component in place and arms no
timer. -/
theorem c9_failed_update_preserves_state_witness :
    (onUpdateFailed (onUpdateStart 123 exampleLiveState)).manifestInfo =
      exampleLiveState.manifestInfo ∧
    (onUpdateFailed (onUpdateStart 123 exampleLiveState)).seekStartTime =
      exampleLiveState.seekStartTime ∧
    (onUpdateFailed (onUpdateStart 123 exampleLiveState)).seekEndTime =
      exampleLiveState.seekEndTime ∧
    (onUpdateFailed (onUpdateStart 123 exampleLiveState)).timeShiftBufferDepth =
      exampleLiveState.timeShiftBufferDepth ∧
    (onUpdateFailed (onUpdateStart 123 exampleLiveState)).targetUpdateTime =
      exampleLiveState.targetUpdateTime ∧
    (onUpdateFailed (onUpdateStart 123 exampleLiveState)).updateTimerArmed =
      false ∧
    (onUpdateFailed (onUpdateStart 123
      exampleLiveState)).seekRangeUpdateTimerArmed =
      exampleLiveState.seekRangeUpdateTimerArmed :=
  c9_failed_update_preserves_state exampleLiveState 123

/-- **C10.** Evaluation of teardown and of an in-flight fetch completion at
the failing input: `destroy` does cancel both timers unconditionally, and
cancelling the already-cancelled timers again is a no-op; but the
completion callback of a refresh fetch still in flight at teardown is NOT a
no-op afterwards — run after `destroy`, it rearms the update timer, stores
the new `timeShiftBufferDepth = 7` (the torn-down state had `0`), and
replaces the manifest snapshot, because `onUpdate_`'s callback consults no
liveness flag. -/
theorem c10_inflight_callback_after_destroy :
    (destroy exampleLiveState).updateTimerArmed = false ∧
    (destroy exampleLiveState).seekRangeUpdateTimerArmed = false ∧
    destroy (destroy exampleLiveState) = destroy exampleLiveState ∧
    (onUpdateSuccess exampleRefreshMpd
        (destroy exampleLiveState)).updateTimerArmed = true ∧
    (onUpdateSuccess exampleRefreshMpd
        (destroy exampleLiveState)).timeShiftBufferDepth = 7 ∧
    (destroy exampleLiveState).timeShiftBufferDepth = 0 ∧
    (onUpdateSuccess exampleRefreshMpd
        (destroy exampleLiveState)).manifestInfo ≠
      (destroy exampleLiveState).manifestInfo := by
  refine ⟨rfl, rfl, rfl, rfl, rfl, rfl, ?_⟩
  decide

end DashVideoSource
